import Mathlib

/-!
Verification of the EduGenie chat-completion pipeline.

This file gives a shallow embedding of the EduGenie repository's core:
the topic extractor and tracker (`edugenie/topic_tracker.py`), the chat
session store (`edugenie/chat.py`), the two completion clients
(`edugenie/openrouter_client.py` and `edugenie/openai_client.py`, the
latter a Gemini integration), the feature prompt builders
(`edugenie/features.py`) and the orchestrator's message assembly
(`app.py`).  Outbound network activity is modelled by explicit oracle
functions passed to the clients, together with a trace of the requests a
call issues; raised Python exceptions are modelled by `Except`.
Strings are Lean `String`s; character classes are the ASCII ranges used
by the Python code.
-/

namespace EduGenie

/-- One role-tagged chat message, as the Python dicts `{"role": r, "content": c}`. -/
structure Message where
  role : String
  content : String
deriving DecidableEq, Repr

/-! ### String utilities shared by the embedded modules -/

/-- Boolean test that `needle` occurs at the head of `hay` (over char lists). -/
def leadsList : List Char → List Char → Bool
  | [], _ => true
  | _ :: _, [] => false
  | a :: as, b :: bs => a == b && leadsList as bs

/-- Boolean substring test over char lists, Python's `needle in hay`. -/
def listContains (needle : List Char) : List Char → Bool
  | [] => needle.isEmpty
  | c :: t => leadsList needle (c :: t) || listContains needle t

/-- Python's `needle in hay` on strings. -/
def containsStr (hay needle : String) : Bool :=
  listContains needle.data hay.data

/-- Python whitespace (`str.strip` / `str.split` / regex `\s`), ASCII part:
space, tab, newline, carriage return, vertical tab, form feed. -/
def isPySpace (c : Char) : Bool :=
  c.toNat == 32 || c.toNat == 9 || c.toNat == 10 || c.toNat == 13 ||
    c.toNat == 11 || c.toNat == 12

/-- Python `str.strip()`: drop leading and trailing whitespace. -/
def pyStrip (s : String) : String :=
  ⟨((s.data.dropWhile isPySpace).reverse.dropWhile isPySpace).reverse⟩

/-- Python `str.removeprefix`: drop `pre` from the head of `s` when present. -/
def removeLeading (s pre : String) : String :=
  if leadsList pre.data s.data then ⟨s.data.drop pre.data.length⟩ else s

/-- Python `"sep".join(parts)`. -/
def joinSep (sep : String) : List String → String
  | [] => ""
  | [s] => s
  | s :: rest => s ++ sep ++ joinSep sep (rest)

namespace topic_tracker

/-- The fixed stopword set of `topic_tracker.py`. -/
def STOPWORDS : List String :=
  ["a", "an", "and", "are", "as", "at", "be", "by", "can", "do", "for",
   "from", "how", "i", "in", "is", "it", "me", "my", "of", "on", "or",
   "please", "should", "tell", "that", "the", "this", "to", "what", "when",
   "where", "which", "why", "with", "you"]

/-- Characters kept by `re.sub(r"[^a-zA-Z0-9\s]", " ", ...)`: ASCII letters,
digits, and whitespace (ASCII ranges of the regex character class). -/
def keepCodeChar (c : Char) : Bool :=
  decide (97 ≤ c.toNat ∧ c.toNat ≤ 122) ||
    decide (65 ≤ c.toNat ∧ c.toNat ≤ 90) ||
    decide (48 ≤ c.toNat ∧ c.toNat ≤ 57) ||
    isPySpace c

/-- The substitution performed by `re.sub(r"[^a-zA-Z0-9\s]", " ", ...)`. -/
def subNonAlnumCode (l : List Char) : List Char :=
  l.map (fun c => if keepCodeChar c then c else ' ')

/-- One step of Python `str.split()` (split on whitespace runs, no empties);
`acc` is the reversed current token. -/
def splitWsAux : List Char → List Char → List (List Char)
  | [], acc => if acc.isEmpty then [] else [acc.reverse]
  | c :: cs, acc =>
      if isPySpace c then
        if acc.isEmpty then splitWsAux cs [] else acc.reverse :: splitWsAux cs []
      else splitWsAux cs (c :: acc)

/-- Python `str.split()` over char lists. -/
def splitWs (l : List Char) : List (List Char) :=
  splitWsAux l []

/-- ASCII digit test, Python's `str.isdigit` character class. -/
def isDigitChar (c : Char) : Bool :=
  decide (48 ≤ c.toNat ∧ c.toNat ≤ 57)

/-- Python `token.isdigit()`: non-empty and all digits. -/
def pyIsDigit (t : List Char) : Bool :=
  !t.isEmpty && t.all isDigitChar

/-- The token filter of `extract_topic`:
`token not in STOPWORDS and len(token) > 2 and not token.isdigit()`. -/
def validToken (t : List Char) : Bool :=
  !(STOPWORDS.map String.data).contains t && decide (2 < t.length) && !pyIsDigit t

/-- Number of occurrences of token `t` in `ts` (`collections.Counter`). -/
def countTok (ts : List (List Char)) (t : List Char) : Nat :=
  (ts.filter (fun x => x == t)).length

/-- The distinct tokens of a list in first-occurrence order (`Counter` key
order, which is insertion order). -/
def firstOccs (seen : List (List Char)) : List (List Char) → List (List Char)
  | [] => []
  | t :: ts =>
      if seen.contains t then firstOccs seen ts
      else t :: firstOccs (t :: seen) ts

/-- The `Counter(tokens).items()` association list, in first-occurrence order. -/
def counterItems (ts : List (List Char)) : List (List Char × Nat) :=
  (firstOccs [] ts).map (fun t => (t, countTok ts t))

/-- Strict lexicographic comparison of `(frequency, length)` keys, as used by
`max(..., key=lambda item: (item[1], len(item[0])))`. -/
def keyLtB (a b : Nat × Nat) : Bool :=
  decide (a.1 < b.1) || (a.1 == b.1 && decide (a.2 < b.2))

/-- The `(frequency, length)` key of one counter item. -/
def itemKey (p : List Char × Nat) : Nat × Nat :=
  (p.2, p.1.length)

/-- One comparison step of Python `max`: the candidate replaces the best so
far only when its key is strictly greater, so the first maximal item wins. -/
def pickStep (best p : List Char × Nat) : List Char × Nat :=
  if keyLtB (itemKey best) (itemKey p) then p else best

/-- Python `max` over a non-empty list with the `(frequency, length)` key:
the first item attaining the maximum wins. -/
def pickMax (x : List Char × Nat) (l : List (List Char × Nat)) : List Char × Nat :=
  l.foldl pickStep x

/-- Proof gadget for the C6 refinement: map non-space whitespace to a plain
space; token splitting cannot distinguish the two cleaned strings. -/
def collapseWs (c : Char) : Char :=
  if isPySpace c then ' ' else c

/-- The topic extractor `extract_topic` of `topic_tracker.py`: lowercase,
substitute non-alphanumerics by spaces, split, filter, then pick the token
with maximal `(frequency, length)`. -/
def extract_topic (user_message : String) : String :=
  let cleaned := subNonAlnumCode (user_message.data.map Char.toLower)
  let tokens := (splitWs cleaned).filter validToken
  if tokens.isEmpty then "general"
  else
    match counterItems tokens with
    | [] => "general"
    | item :: rest => ⟨(pickMax item rest).1⟩

/-- Modelled from the spec's words (for the refinement claim C6): characters
kept are exactly `[a-z0-9 ]`, every other character becomes a space. -/
def keepSpecChar (c : Char) : Bool :=
  decide (97 ≤ c.toNat ∧ c.toNat ≤ 122) ||
    decide (48 ≤ c.toNat ∧ c.toNat ≤ 57) ||
    c.toNat == 32

/-- Modelled from the spec's words: replace every character outside
`[a-z0-9 ]` by a space. -/
def subNonAlnumSpec (l : List Char) : List Char :=
  l.map (fun c => if keepSpecChar c then c else ' ')

/-- Modelled from the spec's words (claim C6's algorithm): lowercase, replace
every character outside `[a-z0-9 ]` with a space, split on whitespace, filter
stopwords, short and numeric tokens, then select by `(frequency, length)` with
first-occurring token winning ties. -/
def extractTopicSpec (user_message : String) : String :=
  let cleaned := subNonAlnumSpec (user_message.data.map Char.toLower)
  let tokens := (splitWs cleaned).filter validToken
  if tokens.isEmpty then "general"
  else
    match counterItems tokens with
    | [] => "general"
    | item :: rest => ⟨(pickMax item rest).1⟩

/-- The in-session topic frequency table: association list in key-insertion
order, mirroring a Python dict. `increment_topic_count` adds 1 to the topic's
count, creating it at 1 at the end when absent (dict update semantics). -/
def increment_topic_count : List (String × Nat) → String → List (String × Nat)
  | [], topic => [(topic, 1)]
  | (k, v) :: rest, topic =>
      if k = topic then (k, v + 1) :: rest
      else (k, v) :: increment_topic_count rest topic

/-- Stable descending insertion by count: the new pair goes after every pair
of greater-or-equal count. -/
def insertByCountDesc (x : String × Nat) : List (String × Nat) → List (String × Nat)
  | [] => [x]
  | y :: ys => if x.2 ≤ y.2 then y :: insertByCountDesc x ys else x :: y :: ys

/-- Stable sort by count descending, modelling Python's stable
`sorted(items, key=lambda item: item[1], reverse=True)`. -/
def sortByCountDesc (l : List (String × Nat)) : List (String × Nat) :=
  l.foldl (fun acc x => insertByCountDesc x acc) []

/-- The `top_topics` query of `topic_tracker.py`: sort by count descending
(stable) and truncate to `limit` (the Python default is 3). -/
def top_topics (counter : List (String × Nat)) (limit : Nat) : List (String × Nat) :=
  (sortByCountDesc counter).take limit

end topic_tracker

namespace chat

/-- The seed assistant greeting of `initialize_chat_state` (the Python source
concatenates two adjacent string literals). -/
def initialMessages : List Message :=
  [⟨"assistant",
    "Hi! I am EduGenie. Ask me anything about your studies, topics, or exam preparation."⟩]

/-- The greeting list `clear_chat` resets to (a second copy of the same
literal in the Python source). -/
def clearMessages : List Message :=
  [⟨"assistant",
    "Hi! I am EduGenie. Ask me anything about your studies, topics, or exam preparation."⟩]

end chat

/-- Session state: the message history (`st.session_state.messages`) and the
topic frequency table (`st.session_state.topic_counter`). -/
structure SessionState where
  messages : List Message
  topic_counter : List (String × Nat)
deriving DecidableEq, Repr

namespace chat

/-- The state produced at session creation by `initialize_chat_state` plus
`initialize_topic_counter`. -/
def initialSession : SessionState :=
  ⟨initialMessages, []⟩

/-- The `add_message` helper: append one message to session history. -/
def add_message (s : SessionState) (role content : String) : SessionState :=
  { s with messages := s.messages ++ [⟨role, content⟩] }

/-- The `clear_chat` helper: reset chat history to the initial assistant
greeting, touching nothing else in the session. -/
def clear_chat (s : SessionState) : SessionState :=
  { s with messages := clearMessages }

end chat

/-! ### Completion clients -/

/-- The exception taxonomy crossing the client boundary: Python `ValueError`
(missing configuration), `openai.APIStatusError` (OpenRouter transport) and
`google.genai.errors.ClientError` (Gemini transport, whose `status_code`
attribute is read with a `None` default). -/
inductive ClientError where
  | valueError (msg : String)
  | apiStatusError (status : Nat) (msg : String)
  | genaiClientError (status : Option Nat) (msg : String)
deriving DecidableEq, Repr

namespace openrouter_client

/-- One outbound `chat.completions.create` payload. -/
structure ORRequest where
  model : String
  temperature : ℚ
  messages : List Message
deriving DecidableEq

/-- Provider outcome of one OpenRouter call: the first choice's message
content (`none` models JSON null), or an `APIStatusError`. -/
inductive ORResult where
  | success (content : Option String)
  | apiStatusFailure (status : Nat) (msg : String)

/-- The fixed local message returned on a 402/429 `APIStatusError`. -/
def quotaFallbackMessage : String :=
  "OpenRouter free quota/rate limit reached. Please try again later or choose another free model."

/-- The generic message substituted for an empty or null response content. -/
def emptyContentMessage : String :=
  "I could not generate a response. Please try again."

/-- The OpenRouter `get_chat_completion`: empty key raises `ValueError`
before any network activity; 402/429 yields the fixed quota message; other
`APIStatusError`s re-raise; empty content becomes the generic message.
The second component is the list of issued network requests. -/
def get_chat_completion (provider : ORRequest → ORResult)
    (api_key model : String) (messages : List Message) (temperature : ℚ) :
    Except ClientError String × List ORRequest :=
  if api_key = "" then
    (Except.error (ClientError.valueError "OPENROUTER_API_KEY is not set."), [])
  else
    let req : ORRequest := ⟨model, temperature, messages⟩
    match provider req with
    | ORResult.apiStatusFailure status msg =>
        if status = 402 ∨ status = 429 then (Except.ok quotaFallbackMessage, [req])
        else (Except.error (ClientError.apiStatusError status msg), [req])
    | ORResult.success content =>
        match content with
        | some c => if c = "" then (Except.ok emptyContentMessage, [req]) else (Except.ok c, [req])
        | none => (Except.ok emptyContentMessage, [req])

end openrouter_client

namespace openai_client

/-- One outbound Gemini `generate_content` payload. -/
structure GeminiRequest where
  model : String
  contents : String
  temperature : ℚ
deriving DecidableEq

/-- Provider outcome of one Gemini call: the response's `text` attribute
(`none` models an absent/None text), or a `genai` `ClientError` with its
optional `status_code` and its `str(exc)` rendering. -/
inductive GeminiResult where
  | success (text : Option String)
  | clientError (status : Option Nat) (msg : String)

/-- One network interaction of the Gemini client: the `models.list` paging
done by `_resolve_model`, or one `generate_content` call. -/
inductive GeminiCall where
  | listModels
  | generateContent (req : GeminiRequest)
deriving DecidableEq

/-- The `_build_gemini_prompt` helper: fold role-tagged messages into system
instructions and a transcript, then join the non-empty sections. -/
def _build_gemini_prompt (messages : List Message) : String :=
  let scan := messages.foldl
    (fun (acc : List String × List String) m =>
      let content := pyStrip m.content
      if content = "" then acc
      else if m.role = "system" then (acc.1 ++ [content], acc.2)
      else if m.role = "assistant" then (acc.1, acc.2 ++ ["Assistant: " ++ content])
      else (acc.1, acc.2 ++ ["User: " ++ content]))
    ([], [])
  let sections :=
    (if scan.1.isEmpty then [] else ["System Instructions:\n" ++ joinSep "\n" scan.1]) ++
      (if scan.2.isEmpty then [] else ["Conversation:\n" ++ joinSep "\n" scan.2]) ++
      ["Assistant:"]
  joinSep "\n\n" sections

/-- The `_extract_response_text` helper: the stripped `text` attribute when
truthy, otherwise the empty string. -/
def _extract_response_text (text : Option String) : String :=
  match text with
  | some t => if t = "" then "" else pyStrip t
  | none => ""

/-- The preferred replacement models of `_resolve_model`. -/
def preferredModels : List String :=
  ["gemini-2.5-flash", "gemini-2.0-flash", "gemini-flash-latest", "gemini-pro-latest"]

/-- The `available` set built by `_resolve_model`'s listing loop: names of
listed models supporting `generateContent`, with a `"models/"` lead removed. -/
def availableModels (objs : List (String × List String)) : List String :=
  (objs.filter (fun o => !(o.1 == "") && o.2.contains "generateContent")).map
    (fun o => removeLeading o.1 "models/")

/-- The `_resolve_model` helper.  `listing` is the outcome of
`client.models.list()` as `(name, supported_actions)` pairs; `none` models an
exception during listing, swallowed by the bare `except`. -/
def _resolve_model (listing : Option (List (String × List String)))
    (requested_model : String) : String :=
  match listing with
  | none => requested_model
  | some objs =>
      let available := availableModels objs
      if available.contains requested_model then requested_model
      else
        match preferredModels.find? (fun c => available.contains c) with
        | some c => c
        | none => requested_model

/-- The simplified-mode offline template of `_local_fallback_response`. -/
def simpleFallbackText (userQuery : String) : String :=
  "AI service abhi unavailable hai, lekin main simple explain karta hoon.\n\n" ++
    "Topic: **" ++ userQuery ++ "**\n" ++
    "- Is topic ko ek chhote step se start karo.\n" ++
    "- Real life example socho.\n" ++
    "- 3 short points likho jo tumhe yaad rakhne hain.\n" ++
    "- End me khud ko 2 questions pucho.\n\n" ++
    "Tip: thodi der baad phir se try karo, API restore hone par detailed answer milega."

/-- The standard offline template of `_local_fallback_response`. -/
def standardFallbackText (userQuery : String) : String :=
  "AI API currently unavailable, so here is a quick fallback study guide.\n\n" ++
    "Topic: **" ++ userQuery ++ "**\n" ++
    "1. Define the core concept in 2-3 lines.\n" ++
    "2. List key terms and formulas/points.\n" ++
    "3. Solve one basic and one medium example.\n" ++
    "4. Write a short revision note.\n\n" ++
    "Retry shortly for full AI-generated response."

/-- One iteration of the `_local_fallback_response` loop body: record the
`"10-year-old"` marker in system messages and the latest user message with
non-empty stripped content. -/
def fallbackScanStep (acc : String × Bool) (m : Message) : String × Bool :=
  let simple := if m.role == "system" && containsStr m.content "10-year-old" then true else acc.2
  let query := if m.role == "user" && !(pyStrip m.content == "") then pyStrip m.content else acc.1
  (query, simple)

/-- The `_local_fallback_response` helper: one pass over the messages records
the last user message with non-empty stripped content and whether any system
message mentions the `"10-year-old"` marker, then renders one of two fixed
templates. -/
def _local_fallback_response (messages : List Message) : String :=
  let scan := messages.foldl fallbackScanStep ("", false)
  let userQuery := if scan.1 = "" then "your topic" else scan.1
  if scan.2 then simpleFallbackText userQuery else standardFallbackText userQuery

/-- The stripped content of the last user message with non-empty stripped
content in a message list (empty string when there is none); this is the
first value the spec says the fallback may depend on. -/
def lastUserQuery (messages : List Message) : String :=
  messages.foldl
    (fun acc m => if m.role == "user" && !(pyStrip m.content == "") then pyStrip m.content else acc) ""

/-- Whether simplified-explanation mode was requested: some system message
contains the `"10-year-old"` marker phrase; this is the second value the
spec says the fallback may depend on. -/
def simplifiedModeRequested (messages : List Message) : Bool :=
  messages.any (fun m => m.role == "system" && containsStr m.content "10-year-old")

/-- The Gemini `get_chat_completion`: empty key raises `ValueError` before
any network activity; otherwise the prompt is built, the model resolved via
`models.list`, and one `generate_content` call issued.  A `ClientError` with
status 429 or a `RESOURCE_EXHAUSTED` message, and one with status 404 or a
`NOT_FOUND` message, fall back locally; other `ClientError`s re-raise.
Successful but empty extracted text also falls back locally.  The second
component is the list of network interactions. -/
def get_chat_completion (listing : Option (List (String × List String)))
    (provider : GeminiRequest → GeminiResult)
    (api_key model : String) (messages : List Message) (temperature : ℚ) :
    Except ClientError String × List GeminiCall :=
  if api_key = "" then
    (Except.error (ClientError.valueError "GEMINI_API_KEY is not set."), [])
  else
    let prompt := _build_gemini_prompt messages
    let selected_model := _resolve_model listing model
    let req : GeminiRequest := ⟨selected_model, prompt, temperature⟩
    let calls := [GeminiCall.listModels, GeminiCall.generateContent req]
    match provider req with
    | GeminiResult.clientError status msg =>
        if status = some 429 ∨ containsStr msg "RESOURCE_EXHAUSTED" = true then
          (Except.ok (_local_fallback_response messages), calls)
        else if status = some 404 ∨ containsStr msg "NOT_FOUND" = true then
          (Except.ok (_local_fallback_response messages), calls)
        else (Except.error (ClientError.genaiClientError status msg), calls)
    | GeminiResult.success text =>
        let content := _extract_response_text text
        (if content = "" then Except.ok (_local_fallback_response messages)
         else Except.ok content, calls)

end openai_client

namespace features

/-- The fixed persona system message prefixed by `_run_feature_prompt`. -/
def personaSystemMessage : Message :=
  ⟨"system",
   "You are EduGenie, an academic AI assistant. Provide well-structured, accurate, student-friendly responses."⟩

/-- The two-message list `_run_feature_prompt` sends: persona system message
plus the feature prompt as a user message. -/
def featureMessages (prompt : String) : List Message :=
  [personaSystemMessage, ⟨"user", prompt⟩]

/-- The `_run_feature_prompt` helper: delegate the two-message list to the
OpenRouter client with temperature 0.3. -/
def _run_feature_prompt (provider : openrouter_client.ORRequest → openrouter_client.ORResult)
    (prompt api_key model : String) :
    Except ClientError String × List openrouter_client.ORRequest :=
  openrouter_client.get_chat_completion provider api_key model (featureMessages prompt) (3/10)

/-- The literal text of the quiz f-string before the interpolated topic. -/
def quizPromptPre : String :=
  "\nCreate a student-friendly quiz on: \""

/-- The literal text of the quiz f-string after the interpolated topic. -/
def quizPromptPost : String :=
  "\".\n\nRequirements:\n- Exactly 5 multiple-choice questions.\n- Each question must have 4 options (A, B, C, D).\n- Keep difficulty moderate for students.\n- After all questions, add a separate \"Answer Key\" section.\n- The answer key must list only question number and correct option letter.\n"

/-- The quiz prompt f-string of `generate_quiz`. -/
def quizPrompt (topic : String) : String :=
  quizPromptPre ++ topic ++ quizPromptPost

/-- The `generate_quiz` feature: run the quiz prompt through
`_run_feature_prompt`. -/
def generate_quiz (provider : openrouter_client.ORRequest → openrouter_client.ORResult)
    (topic api_key model : String) :
    Except ClientError String × List openrouter_client.ORRequest :=
  _run_feature_prompt provider (quizPrompt topic) api_key model

end features

namespace app

/-- The simplified-mode system instruction of `build_chat_messages` (the
Python source concatenates two adjacent string literals). -/
def simpleSystemInstruction : String :=
  "Explain concepts in very simple language, using analogies and real-life examples suitable for a 10-year-old."

/-- The standard system instruction of `build_chat_messages`. -/
def standardSystemInstruction : String :=
  "Provide clear, student-friendly academic explanations with accurate and structured reasoning."

/-- The `build_chat_messages` helper: one leading system message (chosen by
the explain-like-10 flag) followed by the whole session history. -/
def build_chat_messages (explain_like_10 : Bool) (history : List Message) : List Message :=
  ⟨"system", if explain_like_10 then simpleSystemInstruction else standardSystemInstruction⟩ :: history

/-- The operations `app.py` performs on the session history: append the
user's prompt, append an assistant reply (chat answer or tool output), or
clear the chat from the sidebar button. -/
inductive ChatOp where
  | userTurn (content : String)
  | assistantTurn (content : String)
  | clear

/-- Apply one history operation. -/
def applyChatOp (h : List Message) : ChatOp → List Message
  | ChatOp.userTurn c => h ++ [⟨"user", c⟩]
  | ChatOp.assistantTurn c => h ++ [⟨"assistant", c⟩]
  | ChatOp.clear => chat.clearMessages

/-- The session history reached from the seed greeting by a sequence of
`app.py` operations. -/
def chatHistory (ops : List ChatOp) : List Message :=
  ops.foldl applyChatOp chat.initialMessages

end app

/-! ### Helper lemmas -/

theorem leadsList_self_append (n b : List Char) : leadsList n (n ++ b) = true := by
  induction n with
  | nil => rfl
  | cons a as ih => simp [leadsList, ih]

theorem listContains_self_append (n b : List Char) : listContains n (n ++ b) = true := by
  cases n with
  | nil =>
      cases b with
      | nil => rfl
      | cons c t => simp [listContains, leadsList]
  | cons a as =>
      have h : leadsList (a :: as) (a :: (as ++ b)) = true := by
        simp [leadsList, leadsList_self_append]
      simp [listContains, h]

theorem listContains_append_left (n a b : List Char) (h : listContains n b = true) :
    listContains n (a ++ b) = true := by
  induction a with
  | nil => exact h
  | cons x xs ih => simp [listContains, ih]

theorem foldl_fallbackScanStep (ms : List Message) (q : String) (b : Bool) :
    ms.foldl openai_client.fallbackScanStep (q, b) =
      (ms.foldl
        (fun acc m => if m.role == "user" && !(pyStrip m.content == "") then pyStrip m.content else acc) q,
       b || ms.any (fun m => m.role == "system" && containsStr m.content "10-year-old")) := by
  induction ms generalizing q b with
  | nil => simp
  | cons m ms ih =>
      simp only [List.foldl_cons, List.any_cons, ih, openai_client.fallbackScanStep]
      refine Prod.ext ?_ ?_
      · rfl
      · cases hc : m.role == "system" && containsStr m.content "10-year-old" <;>
          simp [hc, Bool.or_assoc]

theorem local_fallback_factors (ms : List Message) :
    openai_client._local_fallback_response ms =
      (let userQuery :=
        if openai_client.lastUserQuery ms = "" then "your topic" else openai_client.lastUserQuery ms
       if openai_client.simplifiedModeRequested ms then openai_client.simpleFallbackText userQuery
       else openai_client.standardFallbackText userQuery) := by
  unfold openai_client._local_fallback_response
  rw [foldl_fallbackScanStep]
  rfl

theorem or_calls_shape (provider : openrouter_client.ORRequest → openrouter_client.ORResult)
    (api_key model : String) (messages : List Message) (temperature : ℚ) :
    (openrouter_client.get_chat_completion provider api_key model messages temperature).2 =
      if api_key = "" then [] else [⟨model, temperature, messages⟩] := by
  unfold openrouter_client.get_chat_completion
  by_cases hk : api_key = ""
  · simp [hk]
  · simp only [if_neg hk]
    cases provider ⟨model, temperature, messages⟩ with
    | apiStatusFailure status msg => by_cases h : status = 402 ∨ status = 429 <;> simp [h]
    | success content =>
        cases content with
        | some c => by_cases h : c = "" <;> simp [h]
        | none => simp

theorem resolve_model_choices (listing : Option (List (String × List String)))
    (requested : String) :
    openai_client._resolve_model listing requested = requested
      ∨ openai_client._resolve_model listing requested ∈ openai_client.preferredModels := by
  cases listing with
  | none => exact Or.inl rfl
  | some objs =>
      have h : openai_client._resolve_model (some objs) requested =
          (if (openai_client.availableModels objs).contains requested = true then requested
           else
             match openai_client.preferredModels.find?
                 (fun c => (openai_client.availableModels objs).contains c) with
             | some c => c
             | none => requested) := rfl
      rw [h]
      by_cases hmem : (openai_client.availableModels objs).contains requested = true
      · rw [if_pos hmem]
        exact Or.inl rfl
      · rw [if_neg hmem]
        cases hfind : openai_client.preferredModels.find?
            (fun c => (openai_client.availableModels objs).contains c) with
        | none => exact Or.inl rfl
        | some c => exact Or.inr (List.mem_of_find?_eq_some hfind)

theorem chatHistory_no_system (ops : List app.ChatOp) (acc : List Message)
    (hacc : acc.all (fun m => !(m.role == "system")) = true) :
    (ops.foldl app.applyChatOp acc).all (fun m => !(m.role == "system")) = true := by
  induction ops generalizing acc with
  | nil => exact hacc
  | cons op ops ih =>
      refine ih _ ?_
      cases op with
      | userTurn c => simp [app.applyChatOp, List.all_append, hacc]
      | assistantTurn c => simp [app.applyChatOp, List.all_append, hacc]
      | clear =>
          show (chat.clearMessages.all fun m => !(m.role == "system")) = true
          decide

theorem char_ofNatAux_toNat (n : Nat) (h : n.isValidChar) : (Char.ofNatAux n h).toNat = n := by
  simp [Char.ofNatAux, Char.toNat, UInt32.toNat, BitVec.toNat_ofNatLt]

theorem char_toNat_inj {c d : Char} (h : c.toNat = d.toNat) : c = d := by
  apply Char.ext
  apply UInt32.ext
  exact h

theorem toNat_toLower (c : Char) :
    (Char.toLower c).toNat
      = if 65 ≤ c.toNat ∧ c.toNat ≤ 90 then c.toNat + 32 else c.toNat := by
  simp only [Char.toLower]
  by_cases h : c.toNat ≥ 65 ∧ c.toNat ≤ 90
  · rw [if_pos h, if_pos (And.intro h.1 h.2)]
    have hv : Nat.isValidChar (c.toNat + 32) := Or.inl (by omega)
    unfold Char.ofNat
    rw [dif_pos hv]
    exact char_ofNatAux_toNat _ hv
  · rw [if_neg h, if_neg (fun hc => h (And.intro hc.1 hc.2))]

theorem toLower_not_upper (c : Char) :
    ¬(65 ≤ (Char.toLower c).toNat ∧ (Char.toLower c).toNat ≤ 90) := by
  rw [toNat_toLower]
  by_cases h : 65 ≤ c.toNat ∧ c.toNat ≤ 90
  · rw [if_pos h]
    omega
  · rw [if_neg h]
    omega

theorem isPySpace_iff (c : Char) :
    isPySpace c = true ↔
      c.toNat = 32 ∨ c.toNat = 9 ∨ c.toNat = 10 ∨ c.toNat = 13 ∨
        c.toNat = 11 ∨ c.toNat = 12 := by
  simp only [isPySpace, Bool.or_eq_true, beq_iff_eq]
  tauto

theorem keepSpecChar_iff (c : Char) :
    topic_tracker.keepSpecChar c = true ↔
      (97 ≤ c.toNat ∧ c.toNat ≤ 122) ∨ (48 ≤ c.toNat ∧ c.toNat ≤ 57) ∨ c.toNat = 32 := by
  simp only [topic_tracker.keepSpecChar, Bool.or_eq_true, decide_eq_true_eq, beq_iff_eq]
  tauto

theorem keepCodeChar_iff (c : Char) :
    topic_tracker.keepCodeChar c = true ↔
      (97 ≤ c.toNat ∧ c.toNat ≤ 122) ∨ (65 ≤ c.toNat ∧ c.toNat ≤ 90) ∨
        (48 ≤ c.toNat ∧ c.toNat ≤ 57) ∨ isPySpace c = true := by
  simp only [topic_tracker.keepCodeChar, Bool.or_eq_true, decide_eq_true_eq]
  tauto

theorem clean_spec_eq_collapse_code (c : Char) (h : ¬(65 ≤ c.toNat ∧ c.toNat ≤ 90)) :
    (if topic_tracker.keepSpecChar c then c else ' ')
      = topic_tracker.collapseWs (if topic_tracker.keepCodeChar c then c else ' ') := by
  by_cases hs : topic_tracker.keepSpecChar c = true
  · rw [if_pos hs]
    rcases (keepSpecChar_iff c).mp hs with h1 | h2 | h3
    · have hcode : topic_tracker.keepCodeChar c = true := (keepCodeChar_iff c).mpr (Or.inl h1)
      have hws : ¬isPySpace c = true := by
        rw [isPySpace_iff]
        omega
      rw [if_pos hcode]
      unfold topic_tracker.collapseWs
      rw [if_neg hws]
    · have hcode : topic_tracker.keepCodeChar c = true :=
        (keepCodeChar_iff c).mpr (Or.inr (Or.inr (Or.inl h2)))
      have hws : ¬isPySpace c = true := by
        rw [isPySpace_iff]
        omega
      rw [if_pos hcode]
      unfold topic_tracker.collapseWs
      rw [if_neg hws]
    · have hc : c = ' ' := char_toNat_inj (by rw [h3]; rfl)
      subst hc
      decide
  · rw [if_neg hs]
    by_cases hw : isPySpace c = true
    · have hcode : topic_tracker.keepCodeChar c = true :=
        (keepCodeChar_iff c).mpr (Or.inr (Or.inr (Or.inr hw)))
      rw [if_pos hcode]
      unfold topic_tracker.collapseWs
      rw [if_pos hw]
    · have hcode : ¬topic_tracker.keepCodeChar c = true := by
        rw [keepCodeChar_iff, isPySpace_iff]
        rw [keepSpecChar_iff] at hs
        rw [isPySpace_iff] at hw
        omega
      rw [if_neg hcode]
      decide

theorem isPySpace_collapseWs (c : Char) :
    isPySpace (topic_tracker.collapseWs c) = isPySpace c := by
  unfold topic_tracker.collapseWs
  by_cases h : isPySpace c = true
  · rw [if_pos h, h]
    rfl
  · rw [if_neg h]

theorem splitWsAux_map_collapseWs (l : List Char) (acc : List Char) :
    topic_tracker.splitWsAux (l.map topic_tracker.collapseWs) acc
      = topic_tracker.splitWsAux l acc := by
  induction l generalizing acc with
  | nil => rfl
  | cons c cs ih =>
      rw [List.map_cons]
      show topic_tracker.splitWsAux (topic_tracker.collapseWs c :: cs.map topic_tracker.collapseWs) acc
        = _
      unfold topic_tracker.splitWsAux
      rw [isPySpace_collapseWs]
      by_cases h : isPySpace c = true
      · rw [if_pos h, if_pos h]
        by_cases ha : acc.isEmpty = true
        · rw [if_pos ha, if_pos ha, ih]
        · rw [if_neg ha, if_neg ha, ih]
      · rw [if_neg h, if_neg h]
        have hcol : topic_tracker.collapseWs c = c := by
          unfold topic_tracker.collapseWs
          rw [if_neg h]
        rw [hcol, ih]

theorem splitWs_map_collapseWs (l : List Char) :
    topic_tracker.splitWs (l.map topic_tracker.collapseWs) = topic_tracker.splitWs l :=
  splitWsAux_map_collapseWs l []

theorem cleaned_spec_eq (l : List Char) :
    topic_tracker.subNonAlnumSpec (l.map Char.toLower)
      = (topic_tracker.subNonAlnumCode (l.map Char.toLower)).map topic_tracker.collapseWs := by
  unfold topic_tracker.subNonAlnumSpec topic_tracker.subNonAlnumCode
  rw [List.map_map, List.map_map, List.map_map]
  apply List.map_congr_left
  intro a _
  exact clean_spec_eq_collapse_code (Char.toLower a) (toLower_not_upper a)

theorem extract_topic_eq_spec (s : String) :
    topic_tracker.extract_topic s = topic_tracker.extractTopicSpec s := by
  simp only [topic_tracker.extract_topic, topic_tracker.extractTopicSpec]
  rw [cleaned_spec_eq, splitWs_map_collapseWs]

theorem foldl_pickStep_mem (x : List Char × Nat) (l : List (List Char × Nat)) :
    l.foldl topic_tracker.pickStep x ∈ x :: l := by
  induction l generalizing x with
  | nil => exact List.mem_singleton.mpr rfl
  | cons p ps ih =>
      rw [List.foldl_cons]
      have hstep : topic_tracker.pickStep x p = x ∨ topic_tracker.pickStep x p = p := by
        unfold topic_tracker.pickStep
        by_cases h : topic_tracker.keyLtB (topic_tracker.itemKey x) (topic_tracker.itemKey p) = true
        · rw [if_pos h]
          exact Or.inr rfl
        · rw [if_neg h]
          exact Or.inl rfl
      rcases List.mem_cons.mp (ih (topic_tracker.pickStep x p)) with h1 | h2
      · rcases hstep with h3 | h3 <;> rw [h1, h3]
        · exact List.mem_cons_self _ _
        · exact List.mem_cons_of_mem _ (List.mem_cons_self _ _)
      · exact List.mem_cons_of_mem _ (List.mem_cons_of_mem _ h2)

theorem firstOccs_subset (seen l : List (List Char)) (t : List Char)
    (h : t ∈ topic_tracker.firstOccs seen l) : t ∈ l := by
  induction l generalizing seen with
  | nil => cases h
  | cons a as ih =>
      unfold topic_tracker.firstOccs at h
      by_cases hs : seen.contains a = true
      · rw [if_pos hs] at h
        exact List.mem_cons_of_mem _ (ih _ h)
      · rw [if_neg hs] at h
        rcases List.mem_cons.mp h with h1 | h2
        · rw [h1]
          exact List.mem_cons_self _ _
        · exact List.mem_cons_of_mem _ (ih _ h2)

theorem extract_topic_ne_empty (s : String) : topic_tracker.extract_topic s ≠ "" := by
  simp only [topic_tracker.extract_topic]
  by_cases he :
      ((topic_tracker.splitWs
        (topic_tracker.subNonAlnumCode (s.data.map Char.toLower))).filter
          topic_tracker.validToken).isEmpty = true
  · rw [if_pos he]
    decide
  · rw [if_neg he]
    cases hci : topic_tracker.counterItems
        ((topic_tracker.splitWs
          (topic_tracker.subNonAlnumCode (s.data.map Char.toLower))).filter
            topic_tracker.validToken) with
    | nil => decide
    | cons item rest =>
        have hmem : topic_tracker.pickMax item rest ∈ item :: rest :=
          foldl_pickStep_mem item rest
        rw [← hci] at hmem
        have hfo : (topic_tracker.pickMax item rest).1 ∈
            topic_tracker.firstOccs []
              ((topic_tracker.splitWs
                (topic_tracker.subNonAlnumCode (s.data.map Char.toLower))).filter
                  topic_tracker.validToken) := by
          unfold topic_tracker.counterItems at hmem
          rcases List.mem_map.mp hmem with ⟨t, ht, hteq⟩
          rw [← hteq]
          exact ht
        have htok := firstOccs_subset _ _ _ hfo
        have hvalid : topic_tracker.validToken (topic_tracker.pickMax item rest).1 = true :=
          (List.mem_filter.mp htok).2
        have hlen : 2 < (topic_tracker.pickMax item rest).1.length := by
          unfold topic_tracker.validToken at hvalid
          simp only [Bool.and_eq_true, decide_eq_true_eq] at hvalid
          exact hvalid.1.2
        intro hcontra
        have hdata := congrArg String.data hcontra
        have : (topic_tracker.pickMax item rest).1 = [] := hdata
        rw [this] at hlen
        simp at hlen

theorem insertByCountDesc_perm (x : String × Nat) (l : List (String × Nat)) :
    (topic_tracker.insertByCountDesc x l).Perm (x :: l) := by
  induction l with
  | nil => exact List.Perm.refl _
  | cons y ys ih =>
      unfold topic_tracker.insertByCountDesc
      by_cases h : x.2 ≤ y.2
      · rw [if_pos h]
        exact (ih.cons y).trans (List.Perm.swap x y ys)
      · rw [if_neg h]

theorem mem_insertByCountDesc {z x : String × Nat} {l : List (String × Nat)}
    (h : z ∈ topic_tracker.insertByCountDesc x l) : z = x ∨ z ∈ l := by
  have := (insertByCountDesc_perm x l).mem_iff.mp h
  exact List.mem_cons.mp this

theorem pairwise_insertByCountDesc (x : String × Nat) (l : List (String × Nat))
    (hl : l.Pairwise (fun p q => q.2 ≤ p.2)) :
    (topic_tracker.insertByCountDesc x l).Pairwise (fun p q => q.2 ≤ p.2) := by
  induction l with
  | nil => exact List.pairwise_singleton _ _
  | cons y ys ih =>
      rcases List.pairwise_cons.mp hl with ⟨hy, hys⟩
      unfold topic_tracker.insertByCountDesc
      by_cases h : x.2 ≤ y.2
      · rw [if_pos h]
        refine List.pairwise_cons.mpr ⟨?_, ih hys⟩
        intro z hz
        rcases mem_insertByCountDesc hz with h1 | h2
        · rw [h1]
          exact h
        · exact hy z h2
      · rw [if_neg h]
        refine List.pairwise_cons.mpr ⟨?_, hl⟩
        intro z hz
        rcases List.mem_cons.mp hz with h1 | h2
        · rw [h1]
          omega
        · have := hy z h2
          omega

theorem sortByCountDesc_append_single (l : List (String × Nat)) (x : String × Nat) :
    topic_tracker.sortByCountDesc (l ++ [x])
      = topic_tracker.insertByCountDesc x (topic_tracker.sortByCountDesc l) := by
  unfold topic_tracker.sortByCountDesc
  rw [List.foldl_append]
  rfl

theorem sortByCountDesc_perm (l : List (String × Nat)) :
    (topic_tracker.sortByCountDesc l).Perm l := by
  induction l using List.reverseRecOn with
  | nil => exact List.Perm.refl _
  | append_singleton l x ih =>
      rw [sortByCountDesc_append_single]
      exact ((insertByCountDesc_perm x _).trans (ih.cons x)).trans
        (List.perm_append_singleton x l).symm

theorem sortByCountDesc_pairwise (l : List (String × Nat)) :
    (topic_tracker.sortByCountDesc l).Pairwise (fun p q => q.2 ≤ p.2) := by
  induction l using List.reverseRecOn with
  | nil => exact List.Pairwise.nil
  | append_singleton l x ih =>
      rw [sortByCountDesc_append_single]
      exact pairwise_insertByCountDesc x _ ih

theorem filter_insertByCountDesc_ne (x : String × Nat) (l : List (String × Nat))
    (c : Nat) (hc : x.2 ≠ c) :
    (topic_tracker.insertByCountDesc x l).filter (fun p => p.2 == c)
      = l.filter (fun p => p.2 == c) := by
  induction l with
  | nil =>
      show List.filter (fun p => p.2 == c) [x] = []
      simp [List.filter_cons, hc]
  | cons y ys ih =>
      unfold topic_tracker.insertByCountDesc
      by_cases h : x.2 ≤ y.2
      · rw [if_pos h]
        rw [List.filter_cons, List.filter_cons, ih]
      · rw [if_neg h]
        rw [List.filter_cons]
        have : (x.2 == c) = false := by
          simp [hc]
        rw [this]
        simp

theorem filter_insertByCountDesc_eq (x : String × Nat) (l : List (String × Nat))
    (hl : l.Pairwise (fun p q => q.2 ≤ p.2)) :
    (topic_tracker.insertByCountDesc x l).filter (fun p => p.2 == x.2)
      = l.filter (fun p => p.2 == x.2) ++ [x] := by
  induction l with
  | nil =>
      show List.filter (fun p => p.2 == x.2) [x] = [] ++ [x]
      simp [List.filter_cons]
  | cons y ys ih =>
      rcases List.pairwise_cons.mp hl with ⟨hy, hys⟩
      unfold topic_tracker.insertByCountDesc
      by_cases h : x.2 ≤ y.2
      · rw [if_pos h]
        rw [List.filter_cons, List.filter_cons, ih hys]
        by_cases hyc : (y.2 == x.2) = true <;> simp [hyc]
      · rw [if_neg h]
        have hnil : (y :: ys).filter (fun p => p.2 == x.2) = [] := by
          refine List.filter_eq_nil_iff.mpr ?_
          intro z hz
          rcases List.mem_cons.mp hz with h1 | h2
          · subst h1
            simp only [beq_iff_eq]
            omega
          · have := hy z h2
            simp only [beq_iff_eq]
            omega
        rw [List.filter_cons, hnil]
        simp

theorem sortByCountDesc_stable (l : List (String × Nat)) (c : Nat) :
    (topic_tracker.sortByCountDesc l).filter (fun p => p.2 == c)
      = l.filter (fun p => p.2 == c) := by
  induction l using List.reverseRecOn with
  | nil => rfl
  | append_singleton l x ih =>
      rw [sortByCountDesc_append_single, List.filter_append]
      by_cases hc : x.2 = c
      · subst hc
        rw [filter_insertByCountDesc_eq x _ (sortByCountDesc_pairwise l), ih]
        simp [List.filter_cons]
      · rw [filter_insertByCountDesc_ne x _ c hc, ih]
        have : List.filter (fun p => p.2 == c) [x] = [] := by
          simp [List.filter_cons, hc]
        rw [this, List.append_nil]

/-! ### Claim theorems -/

/-- C3: with an empty `api_key`, both completion clients fail with the
configuration error (`ValueError`, a constructor distinct from the transport
error constructors of `ClientError`) and issue no network request at all. -/
theorem C3_empty_api_key_config_error_no_network
    (orProvider : openrouter_client.ORRequest → openrouter_client.ORResult)
    (listing : Option (List (String × List String)))
    (gProvider : openai_client.GeminiRequest → openai_client.GeminiResult)
    (model : String) (messages : List Message) (temperature : ℚ) :
    openrouter_client.get_chat_completion orProvider "" model messages temperature
        = (Except.error (ClientError.valueError "OPENROUTER_API_KEY is not set."), [])
      ∧ openai_client.get_chat_completion listing gProvider "" model messages temperature
        = (Except.error (ClientError.valueError "GEMINI_API_KEY is not set."), []) := by
  exact ⟨rfl, rfl⟩

/-- C10: `clear_chat` resets the message list to exactly the seed greeting of
initial session creation and leaves the topic-count table (and hence every
other session component) unchanged. -/
theorem C10_clear_chat_resets_messages_only (s : SessionState) :
    chat.clear_chat s = { messages := chat.initialSession.messages, topic_counter := s.topic_counter }
      ∧ (chat.clear_chat s).messages = chat.initialSession.messages
      ∧ (chat.clear_chat s).topic_counter = s.topic_counter := by
  exact ⟨rfl, rfl, rfl⟩

/-- C1 fails as stated: the Gemini client re-raises a provider `ClientError`
with HTTP status 402 (a quota-exhaustion status named by the claim) whose
message mentions neither RESOURCE_EXHAUSTED nor NOT_FOUND, instead of
returning a local fallback message. -/
theorem C1_counterexample_gemini_402_raises :
    (openai_client.get_chat_completion none
        (fun _ => openai_client.GeminiResult.clientError (some 402) "Payment required")
        "key" "gemini-pro" [⟨"user", "hi"⟩] (2/10)).1
      = Except.error (ClientError.genaiClientError (some 402) "Payment required") := by
  rfl

/-- C1 (amended): each client returns its local fallback message without
raising under the quota condition it actually tests: the OpenRouter client
on an `APIStatusError` with status 402 or 429, the Gemini client on a
`ClientError` with status 429 or a message containing RESOURCE_EXHAUSTED. -/
theorem C1_per_client_quota_fallback
    (api_key model : String) (messages : List Message) (temperature : ℚ)
    (hkey : api_key ≠ "")
    (orStatus : Nat) (orMsg : String) (hor : orStatus = 402 ∨ orStatus = 429)
    (listing : Option (List (String × List String)))
    (gStatus : Option Nat) (gMsg : String)
    (hg : gStatus = some 429 ∨ containsStr gMsg "RESOURCE_EXHAUSTED" = true) :
    (openrouter_client.get_chat_completion
        (fun _ => openrouter_client.ORResult.apiStatusFailure orStatus orMsg)
        api_key model messages temperature).1
      = Except.ok openrouter_client.quotaFallbackMessage
    ∧ (openai_client.get_chat_completion listing
        (fun _ => openai_client.GeminiResult.clientError gStatus gMsg)
        api_key model messages temperature).1
      = Except.ok (openai_client._local_fallback_response messages) := by
  constructor
  · unfold openrouter_client.get_chat_completion
    rw [if_neg hkey]
    simp only [if_pos hor]
  · unfold openai_client.get_chat_completion
    rw [if_neg hkey]
    simp only [if_pos hg]

/-- Witness for C1's amended theorem at concrete inputs. -/
theorem C1_witness :
    (openrouter_client.get_chat_completion
        (fun _ => openrouter_client.ORResult.apiStatusFailure 429 "rate limited")
        "k" "m" [⟨"user", "hi"⟩] (2/10)).1
      = Except.ok openrouter_client.quotaFallbackMessage
    ∧ (openai_client.get_chat_completion none
        (fun _ => openai_client.GeminiResult.clientError (some 429) "quota")
        "k" "m" [⟨"user", "hi"⟩] (2/10)).1
      = Except.ok (openai_client._local_fallback_response [⟨"user", "hi"⟩]) :=
  C1_per_client_quota_fallback "k" "m" [⟨"user", "hi"⟩] (2/10) (by decide)
    429 "rate limited" (Or.inr rfl) none (some 429) "quota" (Or.inl rfl)

/-- C2: the templated local fallback depends only on the last non-empty user
message and on whether simplified-explanation mode was requested via the
system-message marker phrase: two message lists agreeing on those two
observations produce equal fallback texts.  The embedded
`_local_fallback_response` is a total function of the message list alone, so
computing it cannot fail and involves no provider oracle. -/
theorem C2_fallback_determinism (ms₁ ms₂ : List Message)
    (hq : openai_client.lastUserQuery ms₁ = openai_client.lastUserQuery ms₂)
    (hm : openai_client.simplifiedModeRequested ms₁ = openai_client.simplifiedModeRequested ms₂) :
    openai_client._local_fallback_response ms₁ = openai_client._local_fallback_response ms₂ := by
  rw [local_fallback_factors, local_fallback_factors, hq, hm]

/-- Witness for C2 at two concrete message lists that agree on the two
observations while differing elsewhere. -/
theorem C2_witness :
    openai_client._local_fallback_response [⟨"user", " algebra "⟩]
      = openai_client._local_fallback_response [⟨"assistant", "ok"⟩, ⟨"user", "algebra"⟩] :=
  C2_fallback_determinism [⟨"user", " algebra "⟩] [⟨"assistant", "ok"⟩, ⟨"user", "algebra"⟩]
    (by decide) (by decide)

/-- C4 fails as stated: on a successful Gemini response whose text is the
non-empty string `" hi "`, the client returns the stripped string `"hi"`,
not the content exactly as received. -/
theorem C4_counterexample_gemini_strips :
    (openai_client.get_chat_completion none
        (fun _ => openai_client.GeminiResult.success (some " hi "))
        "key" "gemini-pro" [⟨"user", "hi"⟩] (2/10)).1
      = Except.ok "hi"
    ∧ (" hi " : String) ≠ "hi" ∧ (" hi " : String) ≠ "" := by
  refine ⟨rfl, by decide, by decide⟩

/-- C4 (amended): the OpenRouter client returns a non-empty successful
content exactly and substitutes the generic could-not-generate message for
empty or null content; the Gemini client instead returns the
whitespace-stripped text when that strip is non-empty, and its local
fallback message when the text is absent or strips to empty. -/
theorem C4_success_content_handling
    (api_key model : String) (messages : List Message) (temperature : ℚ)
    (hkey : api_key ≠ "") (c : String) (hc : c ≠ "")
    (listing : Option (List (String × List String))) (t : String) :
    (openrouter_client.get_chat_completion
        (fun _ => openrouter_client.ORResult.success (some c))
        api_key model messages temperature).1 = Except.ok c
    ∧ (openrouter_client.get_chat_completion
        (fun _ => openrouter_client.ORResult.success (some ""))
        api_key model messages temperature).1 = Except.ok openrouter_client.emptyContentMessage
    ∧ (openrouter_client.get_chat_completion
        (fun _ => openrouter_client.ORResult.success none)
        api_key model messages temperature).1 = Except.ok openrouter_client.emptyContentMessage
    ∧ (pyStrip t ≠ "" →
        (openai_client.get_chat_completion listing
            (fun _ => openai_client.GeminiResult.success (some t))
            api_key model messages temperature).1 = Except.ok (pyStrip t))
    ∧ (pyStrip t = "" →
        (openai_client.get_chat_completion listing
            (fun _ => openai_client.GeminiResult.success (some t))
            api_key model messages temperature).1
          = Except.ok (openai_client._local_fallback_response messages))
    ∧ (openai_client.get_chat_completion listing
        (fun _ => openai_client.GeminiResult.success none)
        api_key model messages temperature).1
      = Except.ok (openai_client._local_fallback_response messages) := by
  have hextract : openai_client._extract_response_text (some t) = pyStrip t := by
    show (if t = "" then "" else pyStrip t) = pyStrip t
    by_cases ht : t = ""
    · subst ht
      rw [if_pos rfl]
      rfl
    · rw [if_neg ht]
  refine ⟨?_, ?_, ?_, ?_, ?_, ?_⟩
  · unfold openrouter_client.get_chat_completion
    rw [if_neg hkey]
    simp only [if_neg hc]
  · unfold openrouter_client.get_chat_completion
    rw [if_neg hkey]
    rfl
  · unfold openrouter_client.get_chat_completion
    rw [if_neg hkey]
  · intro hs
    unfold openai_client.get_chat_completion
    rw [if_neg hkey]
    simp only [hextract, if_neg hs]
  · intro hs
    unfold openai_client.get_chat_completion
    rw [if_neg hkey]
    simp only [hextract, if_pos hs]
  · unfold openai_client.get_chat_completion
    rw [if_neg hkey]
    rfl

/-- Witness for C4's amended theorem at concrete inputs. -/
theorem C4_witness :
    (openrouter_client.get_chat_completion
        (fun _ => openrouter_client.ORResult.success (some "An answer."))
        "k" "m" [⟨"user", "hi"⟩] (2/10)).1 = Except.ok "An answer."
    ∧ (openrouter_client.get_chat_completion
        (fun _ => openrouter_client.ORResult.success (some ""))
        "k" "m" [⟨"user", "hi"⟩] (2/10)).1 = Except.ok openrouter_client.emptyContentMessage
    ∧ (openrouter_client.get_chat_completion
        (fun _ => openrouter_client.ORResult.success none)
        "k" "m" [⟨"user", "hi"⟩] (2/10)).1 = Except.ok openrouter_client.emptyContentMessage
    ∧ (pyStrip " hi " ≠ "" →
        (openai_client.get_chat_completion none
            (fun _ => openai_client.GeminiResult.success (some " hi "))
            "k" "m" [⟨"user", "hi"⟩] (2/10)).1 = Except.ok (pyStrip " hi "))
    ∧ (pyStrip " hi " = "" →
        (openai_client.get_chat_completion none
            (fun _ => openai_client.GeminiResult.success (some " hi "))
            "k" "m" [⟨"user", "hi"⟩] (2/10)).1
          = Except.ok (openai_client._local_fallback_response [⟨"user", "hi"⟩]))
    ∧ (openai_client.get_chat_completion none
        (fun _ => openai_client.GeminiResult.success none)
        "k" "m" [⟨"user", "hi"⟩] (2/10)).1
      = Except.ok (openai_client._local_fallback_response [⟨"user", "hi"⟩]) :=
  C4_success_content_handling "k" "m" [⟨"user", "hi"⟩] (2/10) (by decide)
    "An answer." (by decide) none " hi "

/-- C5 fails as stated: the OpenRouter client propagates a provider
"model not found" condition (an `APIStatusError` with status 404) to the
caller as an error instead of substituting a replacement model or the local
fallback message. -/
theorem C5_counterexample_openrouter_404_propagates :
    (openrouter_client.get_chat_completion
        (fun _ => openrouter_client.ORResult.apiStatusFailure 404 "model not found")
        "key" "openrouter/free" [⟨"user", "hi"⟩] (2/10)).1
      = Except.error (ClientError.apiStatusError 404 "model not found") := by
  rfl

/-- C5 (amended): only the Gemini client honours the claim: its
`_resolve_model` always selects either the requested model or a member of the
small preferred list, and a provider `ClientError` with status 404 or a
NOT_FOUND message yields the local fallback message rather than an error;
the OpenRouter client propagates a 404 `APIStatusError` to the caller. -/
theorem C5_gemini_not_found_fallback
    (api_key model : String) (messages : List Message) (temperature : ℚ)
    (hkey : api_key ≠ "")
    (listing : Option (List (String × List String)))
    (status : Option Nat) (msg : String)
    (h : status = some 404 ∨ containsStr msg "NOT_FOUND" = true)
    (requested orMsg : String) :
    (openai_client.get_chat_completion listing
        (fun _ => openai_client.GeminiResult.clientError status msg)
        api_key model messages temperature).1
      = Except.ok (openai_client._local_fallback_response messages)
    ∧ (openai_client._resolve_model listing requested = requested
        ∨ openai_client._resolve_model listing requested ∈ openai_client.preferredModels)
    ∧ (openrouter_client.get_chat_completion
        (fun _ => openrouter_client.ORResult.apiStatusFailure 404 orMsg)
        api_key model messages temperature).1
      = Except.error (ClientError.apiStatusError 404 orMsg) := by
  refine ⟨?_, ?_, ?_⟩
  · unfold openai_client.get_chat_completion
    rw [if_neg hkey]
    by_cases hfirst : status = some 429 ∨ containsStr msg "RESOURCE_EXHAUSTED" = true
    · simp only [if_pos hfirst]
    · simp only [if_neg hfirst, if_pos h]
  · exact resolve_model_choices listing requested
  · unfold openrouter_client.get_chat_completion
    rw [if_neg hkey]
    have : ¬((404 : Nat) = 402 ∨ (404 : Nat) = 429) := by decide
    simp only [if_neg this]

/-- Witness for C5's amended theorem at concrete inputs. -/
theorem C5_witness :
    (openai_client.get_chat_completion (some [("models/gemini-2.0-flash", ["generateContent"])])
        (fun _ => openai_client.GeminiResult.clientError (some 404) "NOT_FOUND: no such model")
        "k" "m" [⟨"user", "hi"⟩] (2/10)).1
      = Except.ok (openai_client._local_fallback_response [⟨"user", "hi"⟩])
    ∧ (openai_client._resolve_model (some [("models/gemini-2.0-flash", ["generateContent"])]) "m" = "m"
        ∨ openai_client._resolve_model (some [("models/gemini-2.0-flash", ["generateContent"])]) "m"
            ∈ openai_client.preferredModels)
    ∧ (openrouter_client.get_chat_completion
        (fun _ => openrouter_client.ORResult.apiStatusFailure 404 "model not found")
        "k" "m" [⟨"user", "hi"⟩] (2/10)).1
      = Except.error (ClientError.apiStatusError 404 "model not found") :=
  C5_gemini_not_found_fallback "k" "m" [⟨"user", "hi"⟩] (2/10) (by decide)
    (some [("models/gemini-2.0-flash", ["generateContent"])]) (some 404)
    "NOT_FOUND: no such model" (Or.inl rfl) "m" "model not found"

/-- C8: the chat flow hands the Completion Client exactly one leading system
message followed by the full ordered session history, and any reachable
session history contains no system message (so the leading one is the only
one); the feature-tool flow hands a single system message followed by a
single user message. -/
theorem C8_outbound_request_shape (ops : List app.ChatOp) (flag : Bool) (prompt : String) :
    app.build_chat_messages flag (app.chatHistory ops)
        = ⟨"system", if flag then app.simpleSystemInstruction else app.standardSystemInstruction⟩
            :: app.chatHistory ops
      ∧ ((app.chatHistory ops).all (fun m => !(m.role == "system"))) = true
      ∧ features.featureMessages prompt = [features.personaSystemMessage, ⟨"user", prompt⟩]
      ∧ (features.featureMessages prompt).map Message.role = ["system", "user"] := by
  refine ⟨rfl, ?_, rfl, rfl⟩
  exact chatHistory_no_system ops chat.initialMessages (by decide)

/-- C9: the quiz feature builds a two-message list whose first message is the
fixed persona system prompt and whose second message's text contains the
literal topic and the phrase requiring exactly 5 multiple-choice questions,
and every network request `generate_quiz` issues carries temperature 0.3 and
exactly that message list. -/
theorem C9_quiz_prompt_shape
    (provider : openrouter_client.ORRequest → openrouter_client.ORResult)
    (topic api_key model : String) :
    features.featureMessages (features.quizPrompt topic)
        = [features.personaSystemMessage, ⟨"user", features.quizPrompt topic⟩]
      ∧ (features.featureMessages (features.quizPrompt topic)).length = 2
      ∧ features.personaSystemMessage.role = "system"
      ∧ listContains topic.data (features.quizPrompt topic).data = true
      ∧ listContains ("Exactly 5 multiple-choice questions.").data (features.quizPrompt topic).data
          = true
      ∧ (features.generate_quiz provider topic api_key model).2
          = if api_key = "" then []
            else [⟨model, 3/10, features.featureMessages (features.quizPrompt topic)⟩] := by
  refine ⟨rfl, rfl, rfl, ?_, ?_, ?_⟩
  · show listContains topic.data
      (features.quizPromptPre ++ topic ++ features.quizPromptPost).data = true
    rw [String.data_append, String.data_append, List.append_assoc]
    exact listContains_append_left _ _ _ (listContains_self_append _ _)
  · show listContains ("Exactly 5 multiple-choice questions.").data
      (features.quizPromptPre ++ topic ++ features.quizPromptPost).data = true
    rw [String.data_append, String.data_append, List.append_assoc]
    refine listContains_append_left _ _ _ (listContains_append_left _ _ _ ?_)
    decide
  · exact or_calls_shape provider api_key model (features.featureMessages (features.quizPrompt topic)) (3/10)

/-- C6: for every input string, `extract_topic` (a total function, so it
cannot raise) agrees with the spec's algorithm — lowercase, replace every
character outside `[a-z0-9 ]` with a space, split on whitespace, drop
stopword, short and purely numeric tokens, return `"general"` when nothing
remains and otherwise the `(frequency, length)`-maximal token with the
first-occurring token winning ties — always returns a non-empty string, and
in particular maps `"What is the Krebs cycle?"` to `"krebs"`. -/
theorem C6_extract_topic_matches_spec_algorithm :
    (∀ s : String,
        topic_tracker.extract_topic s = topic_tracker.extractTopicSpec s
          ∧ topic_tracker.extract_topic s ≠ "")
      ∧ topic_tracker.extract_topic "What is the Krebs cycle?" = "krebs" := by
  refine ⟨fun s => ⟨extract_topic_eq_spec s, extract_topic_ne_empty s⟩, by decide⟩

/-- C7: on every topic table reachable by a sequence of `increment` calls
(whose association-list order is first-insertion order) and every limit,
`top_topics` is the `limit`-truncation of a stable descending sort: it is
sorted by count descending, has at most `limit` entries, and the underlying
sort both permutes the table and preserves, within every count class, the
table's first-insertion order; in particular three increments of `"algebra"`
and one of `"geometry"` yield `[("algebra", 3), ("geometry", 1)]`. -/
theorem C7_top_topics_sorted_stable_truncated (ops : List String) (limit : Nat) :
    topic_tracker.top_topics (ops.foldl topic_tracker.increment_topic_count []) limit
        = (topic_tracker.sortByCountDesc (ops.foldl topic_tracker.increment_topic_count [])).take
            limit
      ∧ (topic_tracker.top_topics (ops.foldl topic_tracker.increment_topic_count []) limit).Pairwise
          (fun p q => q.2 ≤ p.2)
      ∧ (topic_tracker.top_topics (ops.foldl topic_tracker.increment_topic_count []) limit).length
          ≤ limit
      ∧ (∀ c : Nat,
          (topic_tracker.sortByCountDesc (ops.foldl topic_tracker.increment_topic_count [])).filter
              (fun p => p.2 == c)
            = (ops.foldl topic_tracker.increment_topic_count []).filter (fun p => p.2 == c))
      ∧ (topic_tracker.sortByCountDesc (ops.foldl topic_tracker.increment_topic_count [])).Perm
          (ops.foldl topic_tracker.increment_topic_count [])
      ∧ topic_tracker.top_topics
          (["algebra", "geometry", "algebra", "algebra"].foldl
            topic_tracker.increment_topic_count []) 3
          = [("algebra", 3), ("geometry", 1)] := by
  refine ⟨rfl, ?_, List.length_take_le limit _,
    fun c => sortByCountDesc_stable _ c, sortByCountDesc_perm _, by decide⟩
  exact List.Pairwise.sublist (List.take_sublist limit _) (sortByCountDesc_pairwise _)

end EduGenie
